import Mathlib

/-!
Shallow embedding of `src/l10n/ai_translate.py` (the `assistant.koplugin`
localization pipeline).

The Python script is one linear `main()`:
config check → load `.po` catalog → one chat-completion API call →
JSON parse/validation of the response → positional entry update →
metadata refresh → save.

External collaborators (the filesystem read, the remote API transport and
`json.loads`) are passed in as oracle inputs; `runMain` reproduces the
control flow of `main()` on them and records its observable effects
(exit status, whether the input read and the API call were attempted,
what was written to the output path, diagnostic lines on stderr) in a
`RunResult`.
-/

/-- A JSON value, as produced by `json.loads`; Python is dynamically
typed, so the parsed response and the values assigned to `msgstr` range
over all of these. -/
inductive JsonVal where
  | null
  | bool (b : Bool)
  | num (n : Int)
  | str (s : String)
  | arr (elems : List JsonVal)
  | obj (fields : List (String × JsonVal))

/-- One catalog entry (polib `POEntry`): the fields this pipeline reads or
writes (`msgid`, `msgstr`, `flags`) plus representative untouched fields
(`msgctxt`, `occurrences`, `comment`, `obsolete`) used to state frame
conditions.  `msgstr` is typed as `JsonVal` because line 146 of the source
assigns whatever element the parsed `translations` list holds. -/
structure POEntry where
  msgid : String
  msgstr : JsonVal
  msgctxt : Option String
  occurrences : List (String × String)
  flags : List String
  comment : String
  obsolete : Bool

/-- The in-memory catalog (polib `POFile`): ordered entries plus the
header metadata mapping. -/
structure POFile where
  entries : List POEntry
  metadata : List (String × String)

/-- `DEFAULT_MODEL` from the source (line 28). -/
def DEFAULT_MODEL : String := "gpt-5-nano"

/-- `LANG_MAP` from the source (lines 41-55): the fixed language-code →
display-name table, in source order. -/
def LANG_MAP : List (String × String) :=
  [("ar", "Arabic"), ("bg_BG", "Bulgarian"), ("bn", "Bengali"), ("ca", "Catalan"),
   ("cs", "Czech"), ("da", "Danish"), ("de", "German"), ("el", "Greek"),
   ("en", "English"), ("en_GB", "English (United Kingdom)"), ("eo", "Esperanto"),
   ("es", "Spanish"), ("eu", "Basque"), ("fa", "Persian"), ("fi", "Finnish"),
   ("fr", "French"), ("gl", "Galician"), ("he", "Hebrew"), ("hi", "Hindi"),
   ("hr", "Croatian"), ("hu", "Hungarian"), ("it_IT", "Italian"), ("ja", "Japanese"),
   ("ka", "Georgian"), ("kk", "Kazakh"), ("ko_KR", "Korean"), ("lt_LT", "Lithuanian"),
   ("lv", "Latvian"), ("nb_NO", "Norwegian Bokm√•l"), ("nl_NL", "Dutch"),
   ("pl", "Polish"), ("pl_PL", "Polish (Poland)"), ("pt_PT", "Portuguese"), ("pt_BR", "Portuguese (Brazil)"),
   ("ro", "Romanian"), ("ro_MD", "Romanian (Moldova)"), ("ru", "Russian"),
   ("sk", "Slovak"), ("sr", "Serbian"), ("sv", "Swedish"), ("th", "Thai"),
   ("tr", "Turkish"), ("uk", "Ukrainian"), ("vi", "Vietnamese"), ("vi_VN", "Vietnamese (Vietnam)"),
   ("zh", "Chinese"), ("zh_CN", "Simplified Chinese"), ("zh_TW", "Traditional Chinese (Taiwan)")]

/-- First-match lookup in a string-keyed association list; models lookup
in a Python `dict` (whose literal keys here are unique). -/
def lookupMeta : List (String × String) → String → Option String
  | [], _ => none
  | (k, v) :: rest, key => if k = key then some v else lookupMeta rest key

/-- In-place update of a `dict` key: replace the value of the first
matching key, else append (Python dicts keep insertion order). -/
def setMeta : List (String × String) → String → String → List (String × String)
  | [], key, val => [(key, val)]
  | (k, v) :: rest, key, val =>
      if k = key then (key, val) :: rest else (k, v) :: setMeta rest key val

/-- `LANG_MAP.get(args.language, args.language)` (source lines 77 and 161):
the display name from the table, falling back to the code itself. -/
def resolveLanguage (code : String) : String :=
  (lookupMeta LANG_MAP code).getD code

/-- The environment variables the script reads (lines 69-71). -/
structure Env where
  apiKey : Option String
  baseUrl : Option String
  model : Option String

/-- The command-line arguments; only `--language` influences the observable
state modelled here (the two paths are abstracted into the read/write
oracles). -/
structure Args where
  language : String

/-- Python falsiness of `os.getenv` results: `not api_key` is true for an
absent variable and for the empty string (line 73). -/
def isFalsy : Option String → Bool
  | none => true
  | some s => s.isEmpty

/-- Outcome of `polib.pofile(args.input_file)` (lines 81-85): a parsed
catalog, or a `FileNotFoundError`/`OSError`. -/
inductive ReadResult where
  | ok (po : POFile)
  | readError

/-- Outcome of the remote API interaction (lines 100-116): the raw
response body together with the result of `json.loads` on it (`none`
models a `JSONDecodeError`), or an `APIError`, or any other exception
raised inside the outer `try`. -/
inductive APIResult where
  | ok (raw : String) (parsed : Option JsonVal)
  | apiError
  | otherError

/-- `needle in hay` for Python strings: substring containment. -/
def charsStart : List Char → List Char → Bool
  | _, [] => true
  | [], _ :: _ => false
  | a :: rest, b :: bs => a = b && charsStart rest bs

/-- Helper for substring search: does `needle` start at some position of
`hay`? -/
def charsContain (hay needle : List Char) : Bool :=
  match hay with
  | [] => needle.isEmpty
  | _ :: t => charsStart hay needle || charsContain t needle

/-- Python `key in s` for strings. -/
def strContains (hay needle : String) : Bool :=
  charsContain hay.data needle.data

/-- Is this JSON value a Python string equal to `key`?  Python `==`
between a `str` and a value of any other type is `False`. -/
def isStrEq (key : String) : JsonVal → Bool
  | .str s => s = key
  | _ => false

/-- First-match lookup in the fields of a JSON object. -/
def lookupJson : List (String × JsonVal) → String → Option JsonVal
  | [], _ => none
  | (k, v) :: rest, key => if k = key then some v else lookupJson rest key

/-- Python `'translations' in data` (line 120): key membership for a
`dict`, element membership for a `list`, substring for a `str`; on any
other type (`int`, `float`, `bool`, `None`) it raises `TypeError`,
modelled as `none`. -/
def jsonMember (data : JsonVal) (key : String) : Option Bool :=
  match data with
  | .obj fields => some (fields.any (fun kv => kv.1 = key))
  | .arr elems => some (elems.any (isStrEq key))
  | .str s => some (strContains s key)
  | _ => none

/-- Python `data['translations']` (lines 120 and 122): field access on a
`dict`; on a `list` or `str` a string subscript raises `TypeError`, on
other types too — modelled as `none` (the missing-key `KeyError` cannot
occur in the source because the subscript is guarded by membership). -/
def jsonIndex (data : JsonVal) (key : String) : Option JsonVal :=
  match data with
  | .obj fields => lookupJson fields key
  | _ => none

/-- `isinstance(x, list)`. -/
def isJsonList : JsonVal → Bool
  | .arr _ => true
  | _ => false

/-- Outcome of the inner parse/validation block (lines 118-128):
`ok` carries `translated_texts`; `decodeError` is a `json.JSONDecodeError`,
`valueError` the explicitly raised `ValueError` (both caught at line 123,
printing the raw body); `pyError` is any other exception (e.g. the
`TypeError` from `in` on a non-container), which escapes to the generic
handler at line 133. -/
inductive PFResult where
  | ok (translated_texts : List JsonVal)
  | decodeError
  | valueError
  | pyError

/-- Lines 118-122: `data = json.loads(response_content)` followed by
`if 'translations' not in data or not isinstance(data['translations'], list):
raise ValueError(...)` and `translated_texts = data['translations']`,
with Python's short-circuit `or` and dynamic typing. -/
def parseTranslations : Option JsonVal → PFResult
  | none => .decodeError
  | some data =>
    match jsonMember data "translations" with
    | none => .pyError
    | some false => .valueError
    | some true =>
      match jsonIndex data "translations" with
      | none => .pyError
      | some (JsonVal.arr ts) => .ok ts
      | some _ => .valueError

/-- Lines 145-149: assign the translation to `msgstr` and, if `'fuzzy'`
is among the flags, `entry.flags.remove('fuzzy')` — which removes only
the first occurrence (`List.erase` has exactly these semantics). -/
def updateEntry (entry : POEntry) (translation : JsonVal) : POEntry :=
  { entry with
    msgstr := translation,
    flags := if entry.flags.contains "fuzzy" then entry.flags.erase "fuzzy"
             else entry.flags }

/-- Lines 155-165: refresh the header metadata; the project identifier is
set only when the key is absent or maps to a falsy (empty) string. -/
def updateMetadata (md : List (String × String)) (language model now : String) :
    List (String × String) :=
  let md1 := setMeta md "PO-Revision-Date" now
  let md2 := setMeta md1 "Last-Translator" ("AI Translator (" ++ model ++ ")")
  let md3 := setMeta md2 "Language-Team" (resolveLanguage language)
  let md4 := setMeta md3 "Language" language
  match lookupMeta md4 "Project-Id-Version" with
  | none => setMeta md4 "Project-Id-Version" "koreader-assistant"
  | some v => if v = "" then setMeta md4 "Project-Id-Version" "koreader-assistant" else md4

/-- What ends up at the output path. -/
inductive OutputArtifact where
  | emptyFile
  | catalog (po : POFile)

/-- The observable effects of one run of `main()`. -/
structure RunResult where
  exitCode : Nat
  inputReadAttempted : Bool
  apiCalled : Bool
  output : Option OutputArtifact
  stderrLines : List String
  promptLanguage : Option String

/-- Diagnostic printed at line 74. -/
def msgNoKey : String := "Error: OPENAI_API_KEY environment variable is not set."

/-- Diagnostic printed at line 84. -/
def msgReadFail : String := "Error: Cannot read input file."

/-- Diagnostic printed at line 131. -/
def msgApiFail : String := "Error: An API error occurred."

/-- Diagnostic printed at line 134. -/
def msgUnexpected : String := "An unexpected error occurred."

/-- Diagnostics printed at lines 124-127 for a parse failure: the raw
response body is surfaced after the banner line. -/
def parseFailLines (raw : String) : List String :=
  ["Error: Could not decode or parse the AI response.",
   "--- Raw AI Response ---",
   raw]

/-- Diagnostics printed at lines 141-142 for a count mismatch. -/
def mismatchLines (expected received : Nat) : List String :=
  ["Error: Mismatch in translation count.",
   "Expected " ++ toString expected ++ " translations, but received " ++
     toString received ++ "."]

/-- The whole of `main()` (lines 57-179) on the oracle inputs: the
environment, the parsed arguments, the result of reading the input file
and the result of the API interaction; `now` stands for the formatted
`datetime.now()` string.  File writes themselves are taken to succeed
(they are external effects recorded in `output`). -/
def runMain (env : Env) (args : Args) (readRes : ReadResult)
    (apiRes : APIResult) (now : String) : RunResult :=
  let model := (env.model).getD DEFAULT_MODEL
  if isFalsy env.apiKey then
    { exitCode := 1, inputReadAttempted := false, apiCalled := false,
      output := none, stderrLines := [msgNoKey], promptLanguage := none }
  else
    match readRes with
    | .readError =>
      { exitCode := 1, inputReadAttempted := true, apiCalled := false,
        output := none, stderrLines := [msgReadFail], promptLanguage := none }
    | .ok po =>
      let entries_to_translate := po.entries
      if entries_to_translate.isEmpty then
        { exitCode := 0, inputReadAttempted := true, apiCalled := false,
          output := some .emptyFile, stderrLines := [], promptLanguage := none }
      else
        let source_texts := entries_to_translate.map (fun e => e.msgid)
        let language_name := resolveLanguage args.language
        match apiRes with
        | .apiError =>
          { exitCode := 1, inputReadAttempted := true, apiCalled := true,
            output := none, stderrLines := [msgApiFail],
            promptLanguage := some language_name }
        | .otherError =>
          { exitCode := 1, inputReadAttempted := true, apiCalled := true,
            output := none, stderrLines := [msgUnexpected],
            promptLanguage := some language_name }
        | .ok raw parsed =>
          match parseTranslations parsed with
          | .decodeError =>
            { exitCode := 1, inputReadAttempted := true, apiCalled := true,
              output := none, stderrLines := parseFailLines raw,
              promptLanguage := some language_name }
          | .valueError =>
            { exitCode := 1, inputReadAttempted := true, apiCalled := true,
              output := none, stderrLines := parseFailLines raw,
              promptLanguage := some language_name }
          | .pyError =>
            { exitCode := 1, inputReadAttempted := true, apiCalled := true,
              output := none, stderrLines := [msgUnexpected],
              promptLanguage := some language_name }
          | .ok translated_texts =>
            if translated_texts.length ≠ source_texts.length then
              { exitCode := 1, inputReadAttempted := true, apiCalled := true,
                output := none,
                stderrLines :=
                  mismatchLines source_texts.length translated_texts.length,
                promptLanguage := some language_name }
            else
              let updated :=
                List.zipWith updateEntry entries_to_translate translated_texts
              let md := updateMetadata po.metadata args.language model now
              { exitCode := 0, inputReadAttempted := true, apiCalled := true,
                output := some (.catalog { entries := updated, metadata := md }),
                stderrLines := [], promptLanguage := some language_name }

/-! ### Helper lemmas -/

theorem lookupMeta_setMeta (md : List (String × String)) (k v k' : String) :
    lookupMeta (setMeta md k v) k' = if k = k' then some v else lookupMeta md k' := by
  induction md with
  | nil => simp [setMeta, lookupMeta]
  | cons a rest ih =>
    obtain ⟨ak, av⟩ := a
    by_cases hak : ak = k
    · subst hak
      by_cases hk : ak = k' <;> simp [setMeta, lookupMeta, hk]
    · by_cases hk : ak = k'
      · subst hk
        have : ¬ k = ak := fun h => hak h.symm
        simp [setMeta, lookupMeta, hak, this]
      · simp [setMeta, lookupMeta, hak, hk, ih]

theorem lookupJson_isSome (fields : List (String × JsonVal)) (key : String) :
    (fields.any fun kv => kv.1 = key) = (lookupJson fields key).isSome := by
  induction fields with
  | nil => simp [lookupJson]
  | cons a rest ih =>
    obtain ⟨k, v⟩ := a
    by_cases hk : k = key <;> simp [lookupJson, hk, ih]

theorem runMain_success (env : Env) (args : Args) (po : POFile) (raw : String)
    (parsed : Option JsonVal) (ts : List JsonVal) (now : String)
    (hkey : isFalsy env.apiKey = false)
    (hne : po.entries ≠ [])
    (hparse : parseTranslations parsed = PFResult.ok ts)
    (hlen : ts.length = po.entries.length) :
    runMain env args (ReadResult.ok po) (APIResult.ok raw parsed) now =
      { exitCode := 0, inputReadAttempted := true, apiCalled := true,
        output := some (OutputArtifact.catalog
          { entries := List.zipWith updateEntry po.entries ts,
            metadata := updateMetadata po.metadata args.language
              ((env.model).getD DEFAULT_MODEL) now }),
        stderrLines := [], promptLanguage := some (resolveLanguage args.language) } := by
  have hne' : po.entries.isEmpty = false := by simpa using hne
  simp [runMain, hkey, hne', hparse, hlen]

/-! ### Concrete inputs used by witnesses and counterexamples -/

/-- A configured environment (credential present). -/
def envOk : Env := { apiKey := some "sk-test", baseUrl := none, model := none }

/-- An environment with the credential variable absent. -/
def envNoKey : Env := { apiKey := none, baseUrl := none, model := none }

/-- An environment with the credential variable set to the empty string. -/
def envEmptyKey : Env := { apiKey := some "", baseUrl := none, model := none }

/-- `--language fr`. -/
def argsFr : Args := { language := "fr" }

/-- Catalog entry "Hello", marked fuzzy. -/
def entryHello : POEntry :=
  { msgid := "Hello", msgstr := JsonVal.str "", msgctxt := none,
    occurrences := [("main.lua", "10")], flags := ["fuzzy"], comment := "greeting",
    obsolete := false }

/-- Catalog entry "Goodbye", no flags. -/
def entryGoodbye : POEntry :=
  { msgid := "Goodbye", msgstr := JsonVal.str "", msgctxt := none,
    occurrences := [], flags := [], comment := "", obsolete := false }

/-- The spec §8 example catalog: entries "Hello" and "Goodbye". -/
def poExample : POFile :=
  { entries := [entryHello, entryGoodbye],
    metadata := [("Project-Id-Version", "assistant"), ("Language", "en")] }

/-- A catalog with no entries. -/
def poEmpty : POFile := { entries := [], metadata := [("Language", "en")] }

/-- Parsed response of the spec §8 example. -/
def parsedExample : Option JsonVal :=
  some (JsonVal.obj
    [("translations", JsonVal.arr [JsonVal.str "Bonjour", JsonVal.str "Au revoir"])])

/-- The spec §8 example API interaction. -/
def respExample : APIResult := APIResult.ok "resp-body" parsedExample

/-! ### Claims -/

/-- C6: when the required credential environment variable is absent, the
pipeline exits with non-zero status without attempting to read the input
catalog and without contacting the remote API; the missing-credential
diagnostic is printed. -/
theorem C6_missingCredential (env : Env) (args : Args) (readRes : ReadResult)
    (apiRes : APIResult) (now : String) (h : env.apiKey = none) :
    (runMain env args readRes apiRes now).exitCode = 1 ∧
    (runMain env args readRes apiRes now).inputReadAttempted = false ∧
    (runMain env args readRes apiRes now).apiCalled = false ∧
    (runMain env args readRes apiRes now).stderrLines = [msgNoKey] := by
  simp [runMain, isFalsy, h]

/-- Witness for C6 at a concrete environment, read result and response. -/
theorem C6_missingCredential_witness :
    (runMain envNoKey argsFr (ReadResult.ok poExample) respExample "now").exitCode = 1 ∧
    (runMain envNoKey argsFr (ReadResult.ok poExample) respExample "now").inputReadAttempted = false ∧
    (runMain envNoKey argsFr (ReadResult.ok poExample) respExample "now").apiCalled = false ∧
    (runMain envNoKey argsFr (ReadResult.ok poExample) respExample "now").stderrLines = [msgNoKey] :=
  C6_missingCredential envNoKey argsFr (ReadResult.ok poExample) respExample "now" rfl

/-- C9: a credential set to the empty string is treated exactly like an
absent credential — the run is indistinguishable from the one with the
variable unset, exits non-zero and prints the missing-credential
diagnostic (the check is on falsiness). -/
theorem C9_emptyCredential (env : Env) (args : Args) (readRes : ReadResult)
    (apiRes : APIResult) (now : String) (h : env.apiKey = some "") :
    runMain env args readRes apiRes now =
      runMain { env with apiKey := none } args readRes apiRes now ∧
    (runMain env args readRes apiRes now).exitCode = 1 ∧
    (runMain env args readRes apiRes now).stderrLines = [msgNoKey] := by
  have hf : isFalsy env.apiKey = true := by rw [h]; rfl
  have hn : isFalsy (({ env with apiKey := none } : Env).apiKey) = true := rfl
  refine ⟨?_, ?_, ?_⟩ <;> simp [runMain, hf, hn]

/-- Witness for C9 at a concrete environment, read result and response. -/
theorem C9_emptyCredential_witness :
    runMain envEmptyKey argsFr (ReadResult.ok poExample) respExample "now" =
      runMain { envEmptyKey with apiKey := none } argsFr (ReadResult.ok poExample) respExample "now" ∧
    (runMain envEmptyKey argsFr (ReadResult.ok poExample) respExample "now").exitCode = 1 ∧
    (runMain envEmptyKey argsFr (ReadResult.ok poExample) respExample "now").stderrLines = [msgNoKey] :=
  C9_emptyCredential envEmptyKey argsFr (ReadResult.ok poExample) respExample "now" rfl

/-- C5: a catalog with zero entries short-circuits — exit status 0, an
empty output artifact is written, and the remote API is never called. -/
theorem C5_zeroEntries (env : Env) (args : Args) (po : POFile)
    (apiRes : APIResult) (now : String)
    (hkey : isFalsy env.apiKey = false) (hempty : po.entries = []) :
    (runMain env args (ReadResult.ok po) apiRes now).exitCode = 0 ∧
    (runMain env args (ReadResult.ok po) apiRes now).output =
      some OutputArtifact.emptyFile ∧
    (runMain env args (ReadResult.ok po) apiRes now).apiCalled = false := by
  simp [runMain, hkey, hempty]

/-- Witness for C5 at a concrete empty catalog. -/
theorem C5_zeroEntries_witness :
    (runMain envOk argsFr (ReadResult.ok poEmpty) respExample "now").exitCode = 0 ∧
    (runMain envOk argsFr (ReadResult.ok poEmpty) respExample "now").output =
      some OutputArtifact.emptyFile ∧
    (runMain envOk argsFr (ReadResult.ok poEmpty) respExample "now").apiCalled = false :=
  C5_zeroEntries envOk argsFr poEmpty respExample "now" rfl rfl

/-- C2: when the parsed response list's length differs from the number of
source strings sent, the pipeline exits with status 1 reporting a count
mismatch, and nothing is written to the output path. -/
theorem C2_countMismatch (env : Env) (args : Args) (po : POFile)
    (raw now : String) (parsed : Option JsonVal) (ts : List JsonVal)
    (hkey : isFalsy env.apiKey = false) (hne : po.entries ≠ [])
    (hparse : parseTranslations parsed = PFResult.ok ts)
    (hlen : ts.length ≠ po.entries.length) :
    (runMain env args (ReadResult.ok po) (APIResult.ok raw parsed) now).exitCode = 1 ∧
    (runMain env args (ReadResult.ok po) (APIResult.ok raw parsed) now).output = none ∧
    (runMain env args (ReadResult.ok po) (APIResult.ok raw parsed) now).stderrLines =
      mismatchLines po.entries.length ts.length := by
  have hne' : po.entries.isEmpty = false := by simpa using hne
  simp [runMain, hkey, hne', hparse, hlen]

/-- A parsed response carrying only one translation. -/
def parsedOne : Option JsonVal :=
  some (JsonVal.obj [("translations", JsonVal.arr [JsonVal.str "Bonjour"])])

/-- Witness for C2: two entries sent, one translation received. -/
theorem C2_countMismatch_witness :
    (runMain envOk argsFr (ReadResult.ok poExample) (APIResult.ok "resp-body" parsedOne) "now").exitCode = 1 ∧
    (runMain envOk argsFr (ReadResult.ok poExample) (APIResult.ok "resp-body" parsedOne) "now").output = none ∧
    (runMain envOk argsFr (ReadResult.ok poExample) (APIResult.ok "resp-body" parsedOne) "now").stderrLines =
      mismatchLines poExample.entries.length [JsonVal.str "Bonjour"].length :=
  C2_countMismatch envOk argsFr poExample "resp-body" "now" parsedOne
    [JsonVal.str "Bonjour"] rfl (List.cons_ne_nil _ _) rfl (by decide)

/-- The update step rewrites the flag list to `erase "fuzzy"` — Python's
guarded `list.remove` drops exactly the first occurrence. -/
theorem updateEntry_flags (e : POEntry) (t : JsonVal) :
    (updateEntry e t).flags = e.flags.erase "fuzzy" := by
  by_cases hm : "fuzzy" ∈ e.flags
  · simp [updateEntry, List.contains, hm]
  · simp [updateEntry, List.contains, hm, List.erase_of_not_mem hm]

/-- Erasing one occurrence removes the element entirely when it occurred
at most once. -/
theorem not_mem_erase_of_count_le_one {a : String} {l : List String}
    (h : List.count a l ≤ 1) : a ∉ l.erase a := by
  intro hmem
  have h1 : 0 < List.count a (l.erase a) := List.count_pos_iff.mpr hmem
  have h2 : List.count a (l.erase a) = List.count a l - 1 :=
    List.count_erase_self a l
  omega

/-- A catalog whose single entry carries the fuzzy flag twice (polib flags
are a plain list; `#, fuzzy, fuzzy` parses to two occurrences). -/
def entryDupFuzzy : POEntry :=
  { msgid := "Hello", msgstr := JsonVal.str "", msgctxt := none,
    occurrences := [], flags := ["fuzzy", "fuzzy"], comment := "",
    obsolete := false }

/-- Catalog holding only `entryDupFuzzy`. -/
def poDupFuzzy : POFile := { entries := [entryDupFuzzy], metadata := [] }

/-- C1 counterexample: the claim says the needs-review flag is cleared
whenever it is present, but `entry.flags.remove('fuzzy')` removes only the
first occurrence — on an entry flagged `["fuzzy", "fuzzy"]` the run
succeeds and the updated entry still carries `"fuzzy"`. -/
theorem C1_counterexample :
    "fuzzy" ∈ entryDupFuzzy.flags ∧
    (runMain envOk argsFr (ReadResult.ok poDupFuzzy)
        (APIResult.ok "resp-body" parsedOne) "now").exitCode = 0 ∧
    (runMain envOk argsFr (ReadResult.ok poDupFuzzy)
        (APIResult.ok "resp-body" parsedOne) "now").output =
      some (OutputArtifact.catalog
        { entries := [updateEntry entryDupFuzzy (JsonVal.str "Bonjour")],
          metadata := updateMetadata [] "fr" DEFAULT_MODEL "now" }) ∧
    "fuzzy" ∈ (updateEntry entryDupFuzzy (JsonVal.str "Bonjour")).flags := by
  refine ⟨by decide, rfl, rfl, by decide⟩

/-- C1 (amended): on the success path, translation i is assigned to the
translated text of entry i for every i < n, order preserved end-to-end,
and the first occurrence of the fuzzy flag is removed from each updated
entry — so whenever the flag occurs at most once (in particular exactly
once) it is cleared. -/
theorem C1_positionalUpdate (env : Env) (args : Args) (po : POFile)
    (raw now : String) (parsed : Option JsonVal) (ts : List JsonVal)
    (hkey : isFalsy env.apiKey = false) (hne : po.entries ≠ [])
    (hparse : parseTranslations parsed = PFResult.ok ts)
    (hlen : ts.length = po.entries.length) :
    ∃ outPo,
      (runMain env args (ReadResult.ok po) (APIResult.ok raw parsed) now).output =
        some (OutputArtifact.catalog outPo) ∧
      outPo.entries.length = po.entries.length ∧
      ∀ i (h1 : i < outPo.entries.length) (h2 : i < po.entries.length)
          (h3 : i < ts.length),
        (outPo.entries.get ⟨i, h1⟩).msgstr = ts.get ⟨i, h3⟩ ∧
        (outPo.entries.get ⟨i, h1⟩).flags =
          ((po.entries.get ⟨i, h2⟩).flags).erase "fuzzy" ∧
        (List.count "fuzzy" (po.entries.get ⟨i, h2⟩).flags ≤ 1 →
          "fuzzy" ∉ (outPo.entries.get ⟨i, h1⟩).flags) := by
  refine ⟨{ entries := List.zipWith updateEntry po.entries ts,
            metadata := updateMetadata po.metadata args.language
              ((env.model).getD DEFAULT_MODEL) now }, ?_, ?_, ?_⟩
  · rw [runMain_success env args po raw parsed ts now hkey hne hparse hlen]
  · simp [hlen]
  · intro i h1 h2 h3
    refine ⟨?_, ?_, ?_⟩
    · simp [List.get_eq_getElem, updateEntry]
    · simp [List.get_eq_getElem, updateEntry_flags]
    · intro hcount
      simp only [List.get_eq_getElem, List.getElem_zipWith, updateEntry_flags]
      exact not_mem_erase_of_count_le_one hcount

/-- Witness for C1 (amended) on the spec §8 example catalog. -/
theorem C1_positionalUpdate_witness :
    ∃ outPo,
      (runMain envOk argsFr (ReadResult.ok poExample)
          (APIResult.ok "resp-body" parsedExample) "now").output =
        some (OutputArtifact.catalog outPo) ∧
      outPo.entries.length = poExample.entries.length ∧
      ∀ i (h1 : i < outPo.entries.length) (h2 : i < poExample.entries.length)
          (h3 : i < [JsonVal.str "Bonjour", JsonVal.str "Au revoir"].length),
        (outPo.entries.get ⟨i, h1⟩).msgstr =
          [JsonVal.str "Bonjour", JsonVal.str "Au revoir"].get ⟨i, h3⟩ ∧
        (outPo.entries.get ⟨i, h1⟩).flags =
          ((poExample.entries.get ⟨i, h2⟩).flags).erase "fuzzy" ∧
        (List.count "fuzzy" (poExample.entries.get ⟨i, h2⟩).flags ≤ 1 →
          "fuzzy" ∉ (outPo.entries.get ⟨i, h1⟩).flags) :=
  C1_positionalUpdate envOk argsFr poExample "resp-body" "now" parsedExample
    [JsonVal.str "Bonjour", JsonVal.str "Au revoir"] rfl (List.cons_ne_nil _ _)
    rfl rfl

/-- C3: on every successful completion the output catalog has exactly as
many entries as the input, each output entry's source text (msgid) equals
the corresponding input entry's, and the remaining entry fields
(msgctxt, occurrences, comment, obsolete) are untouched — only the
translated text and the flag list change. -/
theorem C3_framePreservation (env : Env) (args : Args) (po : POFile)
    (raw now : String) (parsed : Option JsonVal) (ts : List JsonVal)
    (hkey : isFalsy env.apiKey = false) (hne : po.entries ≠ [])
    (hparse : parseTranslations parsed = PFResult.ok ts)
    (hlen : ts.length = po.entries.length) :
    (runMain env args (ReadResult.ok po) (APIResult.ok raw parsed) now).exitCode = 0 ∧
    ∃ outPo,
      (runMain env args (ReadResult.ok po) (APIResult.ok raw parsed) now).output =
        some (OutputArtifact.catalog outPo) ∧
      outPo.entries.length = po.entries.length ∧
      ∀ i (h1 : i < outPo.entries.length) (h2 : i < po.entries.length),
        (outPo.entries.get ⟨i, h1⟩).msgid = (po.entries.get ⟨i, h2⟩).msgid ∧
        (outPo.entries.get ⟨i, h1⟩).msgctxt = (po.entries.get ⟨i, h2⟩).msgctxt ∧
        (outPo.entries.get ⟨i, h1⟩).occurrences =
          (po.entries.get ⟨i, h2⟩).occurrences ∧
        (outPo.entries.get ⟨i, h1⟩).comment = (po.entries.get ⟨i, h2⟩).comment ∧
        (outPo.entries.get ⟨i, h1⟩).obsolete = (po.entries.get ⟨i, h2⟩).obsolete := by
  rw [runMain_success env args po raw parsed ts now hkey hne hparse hlen]
  refine ⟨rfl, { entries := List.zipWith updateEntry po.entries ts,
                 metadata := updateMetadata po.metadata args.language
                   ((env.model).getD DEFAULT_MODEL) now }, rfl, by simp [hlen], ?_⟩
  intro i h1 h2
  refine ⟨?_, ?_, ?_, ?_, ?_⟩ <;> simp [List.get_eq_getElem, updateEntry]

/-- Witness for C3 on the spec §8 example catalog. -/
theorem C3_framePreservation_witness :
    (runMain envOk argsFr (ReadResult.ok poExample)
        (APIResult.ok "resp-body" parsedExample) "now").exitCode = 0 ∧
    ∃ outPo,
      (runMain envOk argsFr (ReadResult.ok poExample)
          (APIResult.ok "resp-body" parsedExample) "now").output =
        some (OutputArtifact.catalog outPo) ∧
      outPo.entries.length = poExample.entries.length ∧
      ∀ i (h1 : i < outPo.entries.length) (h2 : i < poExample.entries.length),
        (outPo.entries.get ⟨i, h1⟩).msgid = (poExample.entries.get ⟨i, h2⟩).msgid ∧
        (outPo.entries.get ⟨i, h1⟩).msgctxt = (poExample.entries.get ⟨i, h2⟩).msgctxt ∧
        (outPo.entries.get ⟨i, h1⟩).occurrences =
          (poExample.entries.get ⟨i, h2⟩).occurrences ∧
        (outPo.entries.get ⟨i, h1⟩).comment = (poExample.entries.get ⟨i, h2⟩).comment ∧
        (outPo.entries.get ⟨i, h1⟩).obsolete = (poExample.entries.get ⟨i, h2⟩).obsolete :=
  C3_framePreservation envOk argsFr poExample "resp-body" "now" parsedExample
    [JsonVal.str "Bonjour", JsonVal.str "Au revoir"] rfl (List.cons_ne_nil _ _)
    rfl rfl


/-- The metadata refresh leaves the `Language-Team` field holding the
resolved language name, whichever branch the project-identifier default
takes. -/
theorem lookupMeta_updateMetadata_team (md : List (String × String))
    (language model now : String) :
    lookupMeta (updateMetadata md language model now) "Language-Team" =
      some (resolveLanguage language) := by
  unfold updateMetadata
  dsimp only
  split <;> [skip; split] <;> simp_all [lookupMeta_setMeta]

/-- The project-identifier behaviour of the metadata refresh: an existing
non-empty value survives; an absent or empty value is defaulted. -/
theorem lookupMeta_updateMetadata_projectId (md : List (String × String))
    (language model now : String) :
    (∀ v, lookupMeta md "Project-Id-Version" = some v → v ≠ "" →
        lookupMeta (updateMetadata md language model now) "Project-Id-Version" =
          some v) ∧
    ((lookupMeta md "Project-Id-Version" = none ∨
        lookupMeta md "Project-Id-Version" = some "") →
        lookupMeta (updateMetadata md language model now) "Project-Id-Version" =
          some "koreader-assistant") := by
  unfold updateMetadata
  dsimp only
  constructor
  · intro v hv hne
    split <;> [skip; split] <;> simp_all [lookupMeta_setMeta]
  · intro h
    split <;> [skip; split] <;> simp_all [lookupMeta_setMeta]

/-- C4 counterexample: the response body `5` is valid JSON that lacks the
`translations` array field, and the pipeline does exit non-zero — but the
raw body is NOT printed: `'translations' not in data` on an `int` raises
`TypeError`, which is caught by the generic handler at line 133 instead of
the parse-error handler, so only the unexpected-error line reaches the
diagnostic stream. -/
theorem C4_counterexample :
    (runMain envOk argsFr (ReadResult.ok poExample)
        (APIResult.ok "5" (some (JsonVal.num 5))) "now").exitCode = 1 ∧
    (runMain envOk argsFr (ReadResult.ok poExample)
        (APIResult.ok "5" (some (JsonVal.num 5))) "now").stderrLines =
      [msgUnexpected] ∧
    "5" ∉ (runMain envOk argsFr (ReadResult.ok poExample)
        (APIResult.ok "5" (some (JsonVal.num 5))) "now").stderrLines :=
  ⟨rfl, rfl, by decide⟩

/-- C4 (amended): for every response body that is not valid JSON, or that
parses to a JSON object lacking a `translations` key or whose
`translations` value is not a list, the pipeline exits with non-zero
status, the raw response body is printed to the diagnostic stream, and no
output is written. -/
theorem C4_parseFailure (env : Env) (args : Args) (po : POFile)
    (raw now : String) (parsed : Option JsonVal)
    (hkey : isFalsy env.apiKey = false) (hne : po.entries ≠ [])
    (h : parsed = none ∨ ∃ fields, parsed = some (JsonVal.obj fields) ∧
          (lookupJson fields "translations" = none ∨
           ∃ v, lookupJson fields "translations" = some v ∧ isJsonList v = false)) :
    (runMain env args (ReadResult.ok po) (APIResult.ok raw parsed) now).exitCode = 1 ∧
    raw ∈ (runMain env args (ReadResult.ok po) (APIResult.ok raw parsed) now).stderrLines ∧
    (runMain env args (ReadResult.ok po) (APIResult.ok raw parsed) now).output = none := by
  have hne' : po.entries.isEmpty = false := by simpa using hne
  have hparse : parseTranslations parsed = PFResult.decodeError ∨
      parseTranslations parsed = PFResult.valueError := by
    rcases h with h0 | ⟨fields, hf, hcase⟩
    · left; rw [h0]; rfl
    · right
      rcases hcase with hnone | ⟨v, hv, hvl⟩
      · have hmem : (fields.any fun kv => kv.1 = "translations") = false := by
          rw [lookupJson_isSome, hnone]; rfl
        rw [hf]; simp [parseTranslations, jsonMember, hmem]
      · have hmem : (fields.any fun kv => kv.1 = "translations") = true := by
          rw [lookupJson_isSome, hv]; rfl
        rw [hf]
        cases v with
        | arr elems => simp [isJsonList] at hvl
        | null => simp [parseTranslations, jsonMember, hmem, jsonIndex, hv]
        | bool b => simp [parseTranslations, jsonMember, hmem, jsonIndex, hv]
        | num n => simp [parseTranslations, jsonMember, hmem, jsonIndex, hv]
        | str s => simp [parseTranslations, jsonMember, hmem, jsonIndex, hv]
        | obj fs => simp [parseTranslations, jsonMember, hmem, jsonIndex, hv]
  rcases hparse with hp | hp <;>
    simp [runMain, hkey, hne', hp, parseFailLines]

/-- Witness for C4 (amended): a response parsing to the empty JSON object
(no `translations` key) fails with the raw body on the diagnostic stream. -/
theorem C4_parseFailure_witness :
    (runMain envOk argsFr (ReadResult.ok poExample)
        (APIResult.ok "bad-body" (some (JsonVal.obj []))) "now").exitCode = 1 ∧
    "bad-body" ∈ (runMain envOk argsFr (ReadResult.ok poExample)
        (APIResult.ok "bad-body" (some (JsonVal.obj []))) "now").stderrLines ∧
    (runMain envOk argsFr (ReadResult.ok poExample)
        (APIResult.ok "bad-body" (some (JsonVal.obj []))) "now").output = none :=
  C4_parseFailure envOk argsFr poExample "bad-body" "now" (some (JsonVal.obj []))
    rfl (List.cons_ne_nil _ _) (Or.inr ⟨[], rfl, Or.inl rfl⟩)

/-- C7: the metadata update sets the project identifier only when the key
is absent or maps to an empty value; a catalog already holding a non-empty
project identifier keeps that exact value in the catalog written after a
successful run. -/
theorem C7_projectIdPreserved (env : Env) (args : Args) (po : POFile)
    (raw now : String) (parsed : Option JsonVal) (ts : List JsonVal)
    (hkey : isFalsy env.apiKey = false) (hne : po.entries ≠ [])
    (hparse : parseTranslations parsed = PFResult.ok ts)
    (hlen : ts.length = po.entries.length) :
    ∃ outPo,
      (runMain env args (ReadResult.ok po) (APIResult.ok raw parsed) now).output =
        some (OutputArtifact.catalog outPo) ∧
      (∀ v, lookupMeta po.metadata "Project-Id-Version" = some v → v ≠ "" →
          lookupMeta outPo.metadata "Project-Id-Version" = some v) ∧
      ((lookupMeta po.metadata "Project-Id-Version" = none ∨
          lookupMeta po.metadata "Project-Id-Version" = some "") →
        lookupMeta outPo.metadata "Project-Id-Version" = some "koreader-assistant") := by
  refine ⟨{ entries := List.zipWith updateEntry po.entries ts,
            metadata := updateMetadata po.metadata args.language
              ((env.model).getD DEFAULT_MODEL) now }, ?_, ?_, ?_⟩
  · rw [runMain_success env args po raw parsed ts now hkey hne hparse hlen]
  · exact (lookupMeta_updateMetadata_projectId po.metadata args.language
      ((env.model).getD DEFAULT_MODEL) now).1
  · exact (lookupMeta_updateMetadata_projectId po.metadata args.language
      ((env.model).getD DEFAULT_MODEL) now).2

/-- Witness for C7 on the spec §8 example catalog, whose metadata holds
the non-empty project identifier "assistant". -/
theorem C7_projectIdPreserved_witness :
    ∃ outPo,
      (runMain envOk argsFr (ReadResult.ok poExample)
          (APIResult.ok "resp-body" parsedExample) "now").output =
        some (OutputArtifact.catalog outPo) ∧
      (∀ v, lookupMeta poExample.metadata "Project-Id-Version" = some v → v ≠ "" →
          lookupMeta outPo.metadata "Project-Id-Version" = some v) ∧
      ((lookupMeta poExample.metadata "Project-Id-Version" = none ∨
          lookupMeta poExample.metadata "Project-Id-Version" = some "") →
        lookupMeta outPo.metadata "Project-Id-Version" = some "koreader-assistant") :=
  C7_projectIdPreserved envOk argsFr poExample "resp-body" "now" parsedExample
    [JsonVal.str "Bonjour", JsonVal.str "Au revoir"] rfl (List.cons_ne_nil _ _)
    rfl rfl

/-- C8: a language code present in the fixed table resolves to its mapped
display name, an absent code resolves to itself, and on the success path
this same resolved name is both the one interpolated into the prompt and
the one stored in the metadata `Language-Team` field. -/
theorem C8_languageResolution (code : String) :
    (∀ name, lookupMeta LANG_MAP code = some name → resolveLanguage code = name) ∧
    (lookupMeta LANG_MAP code = none → resolveLanguage code = code) ∧
    ∀ (env : Env) (args : Args) (po : POFile) (raw now : String)
      (parsed : Option JsonVal) (ts : List JsonVal),
      isFalsy env.apiKey = false → po.entries ≠ [] →
      parseTranslations parsed = PFResult.ok ts →
      ts.length = po.entries.length →
      (runMain env args (ReadResult.ok po) (APIResult.ok raw parsed) now).promptLanguage =
        some (resolveLanguage args.language) ∧
      ∃ outPo,
        (runMain env args (ReadResult.ok po) (APIResult.ok raw parsed) now).output =
          some (OutputArtifact.catalog outPo) ∧
        lookupMeta outPo.metadata "Language-Team" =
          some (resolveLanguage args.language) := by
  refine ⟨?_, ?_, ?_⟩
  · intro name h; simp [resolveLanguage, h]
  · intro h; simp [resolveLanguage, h]
  · intro env args po raw now parsed ts hkey hne hparse hlen
    rw [runMain_success env args po raw parsed ts now hkey hne hparse hlen]
    exact ⟨rfl, ⟨_, rfl, lookupMeta_updateMetadata_team po.metadata args.language
      ((env.model).getD DEFAULT_MODEL) now⟩⟩

/-- Witness for C8: "fr" is in the table and resolves to "French"; on the
example run that name reaches both the prompt and the Language-Team
field. -/
theorem C8_languageResolution_witness :
    resolveLanguage "fr" = "French" ∧
    (runMain envOk argsFr (ReadResult.ok poExample)
        (APIResult.ok "resp-body" parsedExample) "now").promptLanguage =
      some (resolveLanguage argsFr.language) ∧
    ∃ outPo,
      (runMain envOk argsFr (ReadResult.ok poExample)
          (APIResult.ok "resp-body" parsedExample) "now").output =
        some (OutputArtifact.catalog outPo) ∧
      lookupMeta outPo.metadata "Language-Team" =
        some (resolveLanguage argsFr.language) :=
  ⟨(C8_languageResolution "fr").1 "French" rfl,
   ((C8_languageResolution "fr").2.2 envOk argsFr poExample "resp-body" "now"
      parsedExample [JsonVal.str "Bonjour", JsonVal.str "Au revoir"] rfl
      (List.cons_ne_nil _ _) rfl rfl).1,
   ((C8_languageResolution "fr").2.2 envOk argsFr poExample "resp-body" "now"
      parsedExample [JsonVal.str "Bonjour", JsonVal.str "Au revoir"] rfl
      (List.cons_ne_nil _ _) rfl rfl).2⟩

/-- Is this JSON value a Python `str`? -/
def isStrVal : JsonVal → Bool
  | .str _ => true
  | _ => false

/-- Can `po_file.save` serialize this catalog?  polib's `save` builds the
whole file text before opening the output file, and its `_str_field`
helper calls `msgstr.splitlines(True)` — an attribute only strings have —
so serialization succeeds exactly when every entry's `msgstr` is an
actual string. -/
def serializable (po : POFile) : Bool :=
  po.entries.all fun e => isStrVal e.msgstr

/-- Diagnostic printed at line 176 when `po_file.save` raises. -/
def msgSaveFail : String := "Error: Failed to save the output file."

/-- Lines 171-177 refine the save step of `runMain`: a catalog holding a
non-string `msgstr` makes `po_file.save` raise `AttributeError`
deterministically during serialization, before the output file is
written; the exception is caught at line 175, the save diagnostic is
printed, and the process exits 1 with no output file.  On catalogs whose
entries all hold strings this coincides with `runMain`. -/
def runMainSaved (env : Env) (args : Args) (readRes : ReadResult)
    (apiRes : APIResult) (now : String) : RunResult :=
  let r := runMain env args readRes apiRes now
  match r.output with
  | some (OutputArtifact.catalog po) =>
      if serializable po then r
      else { r with exitCode := 1, output := none,
                    stderrLines := r.stderrLines ++ [msgSaveFail] }
  | _ => r

/-- The updated entries serialize exactly when every received translation
is a string: the update step copies translation i into `msgstr` i. -/
theorem serializable_zipWith (entries : List POEntry) (ts : List JsonVal)
    (hlen : ts.length = entries.length) :
    ((List.zipWith updateEntry entries ts).all fun e => isStrVal e.msgstr) =
      ts.all isStrVal := by
  induction entries generalizing ts with
  | nil =>
    cases ts with
    | nil => rfl
    | cons t rest => simp at hlen
  | cons e es ih =>
    cases ts with
    | nil => simp at hlen
    | cons t rest =>
      have hlen' : rest.length = es.length := by simpa using hlen
      simp [updateEntry, ih rest hlen']

/-- A correct-length `translations` list whose elements are not strings. -/
def tsNonString : List JsonVal := [JsonVal.num 3, JsonVal.null]

/-- C10 counterexample: a correct-length `translations` list holding a
number and a null passes validation, yet the pipeline does not proceed as
a success — serializing the non-string `msgstr` values makes
`po_file.save` raise, so the run exits 1 and no output file is written. -/
theorem C10_counterexample :
    parseTranslations (some (JsonVal.obj [("translations", JsonVal.arr tsNonString)])) =
      PFResult.ok tsNonString ∧
    tsNonString.length = poExample.entries.length ∧
    (runMainSaved envOk argsFr (ReadResult.ok poExample)
        (APIResult.ok "resp-body"
          (some (JsonVal.obj [("translations", JsonVal.arr tsNonString)])))
        "now").exitCode = 1 ∧
    (runMainSaved envOk argsFr (ReadResult.ok poExample)
        (APIResult.ok "resp-body"
          (some (JsonVal.obj [("translations", JsonVal.arr tsNonString)])))
        "now").output = none :=
  ⟨rfl, rfl, rfl, rfl⟩

/-- C10 (amended): the response validation checks only that
`translations` is a list of the expected length — elements are never
checked to be strings, and each element is copied verbatim into the
corresponding in-memory entry's translated text; but when at least one
element is not a string the run then fails at the save step, exiting
with status 1, printing the save diagnostic, and writing no output
file. -/
theorem C10_nonStringFailsAtSave (env : Env) (args : Args) (po : POFile)
    (raw now : String) (ts : List JsonVal)
    (hkey : isFalsy env.apiKey = false) (hne : po.entries ≠ [])
    (hlen : ts.length = po.entries.length)
    (hns : ts.all isStrVal = false) :
    parseTranslations (some (JsonVal.obj [("translations", JsonVal.arr ts)])) =
      PFResult.ok ts ∧
    (∀ i (hz : i < (List.zipWith updateEntry po.entries ts).length)
        (h3 : i < ts.length),
      ((List.zipWith updateEntry po.entries ts).get ⟨i, hz⟩).msgstr =
        ts.get ⟨i, h3⟩) ∧
    (runMainSaved env args (ReadResult.ok po)
        (APIResult.ok raw (some (JsonVal.obj [("translations", JsonVal.arr ts)])))
        now).exitCode = 1 ∧
    (runMainSaved env args (ReadResult.ok po)
        (APIResult.ok raw (some (JsonVal.obj [("translations", JsonVal.arr ts)])))
        now).output = none ∧
    msgSaveFail ∈ (runMainSaved env args (ReadResult.ok po)
        (APIResult.ok raw (some (JsonVal.obj [("translations", JsonVal.arr ts)])))
        now).stderrLines := by
  have hparse : parseTranslations
      (some (JsonVal.obj [("translations", JsonVal.arr ts)])) = PFResult.ok ts := by
    simp [parseTranslations, jsonMember, jsonIndex, lookupJson]
  have hrun := runMain_success env args po raw
    (some (JsonVal.obj [("translations", JsonVal.arr ts)])) ts now hkey hne hparse hlen
  have hser : serializable
      { entries := List.zipWith updateEntry po.entries ts,
        metadata := updateMetadata po.metadata args.language
          ((env.model).getD DEFAULT_MODEL) now } = false := by
    simp only [serializable]
    rw [serializable_zipWith po.entries ts hlen]
    exact hns
  refine ⟨hparse, ?_, ?_, ?_, ?_⟩
  · intro i hz h3
    simp [List.get_eq_getElem, updateEntry]
  · simp [runMainSaved, hrun, hser]
  · simp [runMainSaved, hrun, hser]
  · simp [runMainSaved, hrun, hser]

/-- Witness for C10 (amended): a number and a null pass validation, are
assigned verbatim in memory, and the run fails at save. -/
theorem C10_nonStringFailsAtSave_witness :
    parseTranslations (some (JsonVal.obj [("translations", JsonVal.arr tsNonString)])) =
      PFResult.ok tsNonString ∧
    (∀ i (hz : i < (List.zipWith updateEntry poExample.entries tsNonString).length)
        (h3 : i < tsNonString.length),
      ((List.zipWith updateEntry poExample.entries tsNonString).get ⟨i, hz⟩).msgstr =
        tsNonString.get ⟨i, h3⟩) ∧
    (runMainSaved envOk argsFr (ReadResult.ok poExample)
        (APIResult.ok "resp-body"
          (some (JsonVal.obj [("translations", JsonVal.arr tsNonString)])))
        "now").exitCode = 1 ∧
    (runMainSaved envOk argsFr (ReadResult.ok poExample)
        (APIResult.ok "resp-body"
          (some (JsonVal.obj [("translations", JsonVal.arr tsNonString)])))
        "now").output = none ∧
    msgSaveFail ∈ (runMainSaved envOk argsFr (ReadResult.ok poExample)
        (APIResult.ok "resp-body"
          (some (JsonVal.obj [("translations", JsonVal.arr tsNonString)])))
        "now").stderrLines :=
  C10_nonStringFailsAtSave envOk argsFr poExample "resp-body" "now" tsNonString
    rfl (List.cons_ne_nil _ _) rfl rfl
